import Mathlib

/-!
Shallow embedding of the client-side orchestration layer of the biochar
water-conservation website: the plot request coordination in
`static/js/plots.js` and `plot_utils.js`, the summary aggregation and
presentation in `api_requests.js` (newest draft), the selection-state
event handlers in `main.js`, and the export logic in `downloads.js`.

JavaScript objects are modelled as association lists `List (String × V)`
(keys unique, in insertion order); optional/possibly-`undefined` values as
`Option`; network outcomes as an explicit `FetchOutcome` datatype.
-/

namespace BiocharClient

/-- Model of JavaScript `String.prototype.includes` on the character list of
a string: `charsContain pat s` holds when `pat` occurs contiguously in `s`. -/
def charsContain (pat : List Char) : List Char → Bool
  | [] => pat.isEmpty
  | c :: rest => pat.isPrefixOf (c :: rest) || charsContain pat rest

/-- JavaScript `s.includes(pat)`. -/
def jsIncludes (s pat : String) : Bool := charsContain pat.data s.data

/-- The ratio pair-group split used in the summary presenter, at both sites
(flat layout: `for (key of Object.entries(data.ratio_statistics)) if
(key.includes("S1_S2")) s1s2[key]=v; else if (key.includes("S3_S4"))
s3s4[key]=v;` and identically inside the seasonal accordion over
`ratioStats`). Returns the `s1s2` and `s3s4` objects in insertion order. -/
def splitRatioEntries {V : Type} : List (String × V) → List (String × V) × List (String × V)
  | [] => ([], [])
  | (k, v) :: rest =>
    if jsIncludes k "S1_S2" then
      ((k, v) :: (splitRatioEntries rest).1, (splitRatioEntries rest).2)
    else if jsIncludes k "S3_S4" then
      ((splitRatioEntries rest).1, (k, v) :: (splitRatioEntries rest).2)
    else splitRatioEntries rest

theorem splitRatio_eq_filter {V : Type} (l : List (String × V)) :
    splitRatioEntries l =
      (l.filter (fun e => jsIncludes e.1 "S1_S2"),
       l.filter (fun e => !jsIncludes e.1 "S1_S2" && jsIncludes e.1 "S3_S4")) := by
  induction l with
  | nil => rfl
  | cons hd tl ih =>
    obtain ⟨k, v⟩ := hd
    by_cases h1 : jsIncludes k "S1_S2" = true
    · simp [splitRatioEntries, List.filter_cons, h1, ih]
    · by_cases h2 : jsIncludes k "S3_S4" = true
      · simp [splitRatioEntries, List.filter_cons, h1, h2, ih]
      · simp [splitRatioEntries, List.filter_cons, h1, h2, ih]

theorem mem_splitRatio_fst {V : Type} (l : List (String × V)) (e : String × V) :
    e ∈ (splitRatioEntries l).1 ↔ e ∈ l ∧ jsIncludes e.1 "S1_S2" = true := by
  rw [splitRatio_eq_filter]
  simp [List.mem_filter]

theorem mem_splitRatio_snd {V : Type} (l : List (String × V)) (e : String × V) :
    e ∈ (splitRatioEntries l).2 ↔
      e ∈ l ∧ jsIncludes e.1 "S1_S2" = false ∧ jsIncludes e.1 "S3_S4" = true := by
  rw [splitRatio_eq_filter]
  simp [List.mem_filter]

/-- C2: every entry of a ratio StatBucket is assigned to exactly one of
pair-group "1/2" (key contains "S1_S2"), pair-group "3/4" (key contains
"S3_S4"), or neither; never both, and a key containing both substrings goes
only to pair-group "1/2". -/
theorem ratio_pair_grouping {V : Type} (entries : List (String × V)) (e : String × V)
    (he : e ∈ entries) :
    (e ∈ (splitRatioEntries entries).1 ↔ jsIncludes e.1 "S1_S2" = true) ∧
    (e ∈ (splitRatioEntries entries).2 ↔
      (jsIncludes e.1 "S1_S2" = false ∧ jsIncludes e.1 "S3_S4" = true)) ∧
    ¬(e ∈ (splitRatioEntries entries).1 ∧ e ∈ (splitRatioEntries entries).2) ∧
    (jsIncludes e.1 "S1_S2" = true → jsIncludes e.1 "S3_S4" = true →
      e ∈ (splitRatioEntries entries).1 ∧ e ∉ (splitRatioEntries entries).2) := by
  refine ⟨?_, ?_, ?_, ?_⟩
  · rw [mem_splitRatio_fst]
    exact ⟨fun h => h.2, fun h => ⟨he, h⟩⟩
  · rw [mem_splitRatio_snd]
    exact ⟨fun h => ⟨h.2.1, h.2.2⟩, fun h => ⟨he, h.1, h.2⟩⟩
  · rintro ⟨h1, h2⟩
    rw [mem_splitRatio_fst] at h1
    rw [mem_splitRatio_snd] at h2
    rw [h1.2] at h2
    exact absurd h2.2.1 (by simp)
  · intro hi1 hi3
    constructor
    · exact (mem_splitRatio_fst entries e).mpr ⟨he, hi1⟩
    · intro hmem
      rw [mem_splitRatio_snd] at hmem
      rw [hi1] at hmem
      exact absurd hmem.2.1 (by simp)

/-- Witness for C2: the spec scenario, a ratio StatBucket with keys
"VWC_S1_S2_T" and "VWC_S3_S4_B"; the first entry lands in pair-group "1/2". -/
theorem ratio_pair_grouping_witness :
    ("VWC_S1_S2_T", (0 : Nat)) ∈
      (splitRatioEntries [("VWC_S1_S2_T", (0 : Nat)), ("VWC_S3_S4_B", 1)]).1 :=
  ((ratio_pair_grouping [("VWC_S1_S2_T", (0 : Nat)), ("VWC_S3_S4_B", 1)]
      ("VWC_S1_S2_T", (0 : Nat)) (by decide)).1).mpr (by decide)

/-- An event in the life of one (context, target) pair of plot requests.
`issue id` is a call of `updatePlot` in plots.js (snapshot the filters, start
the fetch); `arrive id` is that request's response resolving successfully
(the continuation after `await`, which calls `Plotly.react` with the arrived
payload). The JavaScript runtime is single-threaded, so a session is a
sequence of these events. -/
inductive PlotEvent where
  | issue (reqId : Nat)
  | arrive (reqId : Nat)
deriving DecidableEq

/-- State transition of the rendered chart for one (context, target) pair,
as implemented by `updatePlot` (plots.js lines 11-62): issuing a request
renders nothing; an arriving response is rendered unconditionally by
`Plotly.react` — there is no sequence-number or staleness comparison
anywhere in the function, so a superseded response still overwrites the
chart. The rendered state records which request's payload is on screen. -/
def updatePlotApply (rendered : Option Nat) : PlotEvent → Option Nat
  | .issue _ => rendered
  | .arrive i => some i

/-- The rendered state after a whole event sequence, starting from an empty
chart. -/
def runPlotEvents (events : List PlotEvent) : Option Nat :=
  events.foldl updatePlotApply none

/-- Counterexample to C1: request A (= 1) is issued, then request B (= 2) is
issued for the same (context, target); B's response arrives before A's. The
claim says the final rendered state reflects B (request 2) and that A's
response is discarded, but the code renders every arriving response, so the
final state shows A's stale payload (request 1). -/
theorem stale_response_rendered_counterexample :
    runPlotEvents [.issue 1, .issue 2, .arrive 2, .arrive 1] = some 1 ∧
      (some 1 : Option Nat) ≠ some 2 := by
  constructor
  · rfl
  · decide

/-- C1 (amended): the renderer's final state reflects the most recently
*arrived* response, regardless of issuance order — an arriving response is
always rendered, even when its request has been superseded, and issuing a
request never changes the rendered state. -/
theorem last_arrival_wins (events : List PlotEvent) (i j : Nat) :
    runPlotEvents (events ++ [PlotEvent.arrive i]) = some i ∧
      runPlotEvents (events ++ [PlotEvent.issue j]) = runPlotEvents events := by
  constructor
  · rw [runPlotEvents, List.foldl_append]
    rfl
  · rw [runPlotEvents, List.foldl_append]
    rfl

/-- The two date input fields of the main context (start-date, end-date). -/
structure DateFields where
  startDate : String
  endDate : String
deriving DecidableEq

/-- Outcome of the GET /get_end_date lookup as seen by the handler's
continuations: `success d` is a JSON response whose `endDate` field is
present (and truthy); `missing` is a JSON response without an `endDate`
field; `failure` is a transport error (the promise rejects into `.catch`). -/
inductive EndDateLookup where
  | success (d : String)
  | missing
  | failure
deriving DecidableEq

/-- The main-year change handler (main.js lines 181-201): set start-date to
"year-01-01", issue the end-date lookup for the selected year, and when it
settles set end-date from the response or fall back to "year-12-31" on a
missing field or a transport error. Returns the final field state together
with the year the lookup was issued for. The handler has no rethrow path:
both failure shapes are handled by `setInputValue`, never by raising. -/
def mainYearChange (year : String) (res : EndDateLookup) (st : DateFields) :
    DateFields × String :=
  let st1 := { st with startDate := year ++ "-01-01" }
  (match res with
    | .success d => { st1 with endDate := d }
    | .missing => { st1 with endDate := year ++ "-12-31" }
    | .failure => { st1 with endDate := year ++ "-12-31" }, year)

/-- C6: setting the main context's year to Y sets startDate to "Y-01-01" and
issues an end-date lookup for Y; when the lookup fails (transport error or a
response without an endDate) endDate becomes the fallback "Y-12-31", and the
handler still produces a well-defined state (no fatal error). -/
theorem year_change_dates (year : String) (st : DateFields) :
    (∀ res, (mainYearChange year res st).1.startDate = year ++ "-01-01" ∧
      (mainYearChange year res st).2 = year) ∧
    (mainYearChange year .missing st).1.endDate = year ++ "-12-31" ∧
    (mainYearChange year .failure st).1.endDate = year ++ "-12-31" ∧
    (∀ d, (mainYearChange year (.success d) st).1.endDate = d) := by
  refine ⟨fun res => ⟨?_, rfl⟩, rfl, rfl, fun d => rfl⟩
  cases res <;> rfl

/-- The date-range UI state touched by the main-granularity handler: the two
stored date strings plus each field's disabled flag and dimmed (opacity 0.5)
flag. -/
structure DateRangeUI where
  startDate : String
  endDate : String
  startDisabled : Bool
  endDisabled : Bool
  startDimmed : Bool
  endDimmed : Bool
deriving DecidableEq

/-- The main-granularity change handler (main.js lines 203-213): compute
`isGseason = selected === "gseason"`, set both fields' disabled flags and
opacity from it, and touch nothing else — in particular the stored date
values are not written. -/
def mainGranularityChange (selected : String) (st : DateRangeUI) : DateRangeUI :=
  let isGseason := selected == "gseason"
  { st with startDisabled := isGseason, endDisabled := isGseason,
            startDimmed := isGseason, endDimmed := isGseason }

/-- C7: switching granularity to the season-aggregation value disables the
date fields but leaves their stored values unchanged, and switching to any
non-season granularity afterwards re-enables them with exactly the prior
startDate and endDate. -/
theorem gseason_preserves_dates (st : DateRangeUI) (g : String)
    (hg : g ≠ "gseason") :
    (mainGranularityChange "gseason" st).startDate = st.startDate ∧
    (mainGranularityChange "gseason" st).endDate = st.endDate ∧
    (mainGranularityChange "gseason" st).startDisabled = true ∧
    (mainGranularityChange "gseason" st).endDisabled = true ∧
    (mainGranularityChange g (mainGranularityChange "gseason" st)).startDate
      = st.startDate ∧
    (mainGranularityChange g (mainGranularityChange "gseason" st)).endDate
      = st.endDate ∧
    (mainGranularityChange g (mainGranularityChange "gseason" st)).startDisabled
      = false ∧
    (mainGranularityChange g (mainGranularityChange "gseason" st)).endDisabled
      = false := by
  have hb : (g == "gseason") = false := by
    simp [hg]
  refine ⟨rfl, rfl, rfl, rfl, rfl, rfl, ?_, ?_⟩ <;>
    simp [mainGranularityChange, hb]

/-- Witness for C7 at a concrete state and granularity "daily". -/
theorem gseason_preserves_dates_witness :
    (mainGranularityChange "daily"
      (mainGranularityChange "gseason"
        ⟨"2023-01-01", "2023-11-15", false, false, false, false⟩)).startDate
      = "2023-01-01" ∧
    (mainGranularityChange "gseason"
      ⟨"2023-01-01", "2023-11-15", false, false, false, false⟩).startDisabled
      = true :=
  ⟨(gseason_preserves_dates
      ⟨"2023-01-01", "2023-11-15", false, false, false, false⟩ "daily"
      (by decide)).2.2.2.2.1,
   (gseason_preserves_dates
      ⟨"2023-01-01", "2023-11-15", false, false, false, false⟩ "daily"
      (by decide)).2.2.1⟩

/-- One rendered cell of the summary display: either a statistics table over
the given entries (the HTML produced by `generateSummaryTable`, whose label
and number formatting is not relevant to the claims), or a placeholder
paragraph with its CSS class and literal text. -/
inductive RenderedCell (V : Type) where
  | table (entries : List (String × V))
  | placeholder (cssClass text : String)
deriving DecidableEq

/-- The temperature-family test of the presenter (newest
`updateMainDataDisplay` draft, line 135): `["T", "temp_air",
"temp_soil_5cm", "temp_soil_15cm"].includes(variable)`. -/
def isTempVariable (varName : String) : Bool :=
  ["T", "temp_air", "temp_soil_5cm", "temp_soil_15cm"].contains varName

/-- A ratio pair-group cell in the flat (non-season) layout
(`updateMainDataDisplay`, lines 157-167): a table when the group is
non-empty, otherwise the "not meaningful" paragraph for temperature-family
variables and the "no data" paragraph for the rest. -/
def flatRatioCell {V : Type} (grp : List (String × V)) (varName : String) :
    RenderedCell V :=
  if 0 < grp.length then .table grp
  else if isTempVariable varName then
    .placeholder "text-muted"
      "Temperature ratios are not shown because they are not meaningful."
  else .placeholder "text-danger" "No summary statistics available."

/-- A ratio pair-group cell in the seasonal accordion layout
(`generateSeasonalSummaryAccordion`, lines 84-90): a table when the group is
non-empty, otherwise a fixed "No S1/S2 (resp. S3/S4) ratio summary
available." paragraph — the variable plays no role here. -/
def accordionRatioCell {V : Type} (grp : List (String × V)) (pairLabel : String) :
    RenderedCell V :=
  if 0 < grp.length then .table grp
  else .placeholder "text-muted" ("No " ++ pairLabel ++ " ratio summary available.")

/-- The per-season raw-statistics cell (`generateSeasonalSummaryAccordion`,
lines 69-74): a table when `stats?.raw_statistics` is an object, otherwise a
"no raw data" paragraph. The season title shown in the placeholder is the
season's display label; label formatting (`formatGseasonLabel`) is not
modelled, the season code stands in for it. -/
def accordionRawCell {V : Type} (rawStats : Option (List (String × V)))
    (seasonCode : String) : RenderedCell V :=
  match rawStats with
  | some rs => .table rs
  | none => .placeholder "text-muted" ("No raw data available for " ++ seasonCode)

/-- One season's entry of `gseason_stats`: the `raw_statistics` and
`ratio_statistics` objects, each possibly absent. -/
structure SeasonStats (V : Type) where
  raw : Option (List (String × V))
  ratio : Option (List (String × V))
deriving DecidableEq

/-- One collapsible accordion section as assembled by
`generateSeasonalSummaryAccordion`: its season code, whether it starts
expanded (the button is rendered without "collapsed" and the collapse div
with "show" exactly when `idx === 0`), and its three content cells. -/
structure AccordionSection (V : Type) where
  seasonCode : String
  expanded : Bool
  rawCell : RenderedCell V
  s1s2Cell : RenderedCell V
  s3s4Cell : RenderedCell V
deriving DecidableEq

/-- The body of the `for (const [seasonCode, stats] of
Object.entries(gseasonStats))` loop at index `idx`. -/
def mkAccordionSection {V : Type} (idx : Nat) (seasonCode : String)
    (stats : SeasonStats V) : AccordionSection V :=
  { seasonCode := seasonCode
    expanded := idx == 0
    rawCell := accordionRawCell stats.raw seasonCode
    s1s2Cell := accordionRatioCell
      (match stats.ratio with
        | some rs => (splitRatioEntries rs).1
        | none => []) "S1/S2"
    s3s4Cell := accordionRatioCell
      (match stats.ratio with
        | some rs => (splitRatioEntries rs).2
        | none => []) "S3/S4" }

/-- The loop of `generateSeasonalSummaryAccordion` with the running index
`idx` made explicit (the source initialises `idx = 0` and increments it once
per season entry). -/
def accordionSectionsFrom {V : Type} (idx : Nat) :
    List (String × SeasonStats V) → List (AccordionSection V)
  | [] => []
  | (code, stats) :: rest =>
    mkAccordionSection idx code stats :: accordionSectionsFrom (idx + 1) rest

/-- `generateSeasonalSummaryAccordion` (newest draft, lines 59-118): one
section per entry of `gseason_stats`, iterated in the order of the object's
own entries, with `idx` starting at 0. -/
def generateSeasonalSummaryAccordion {V : Type}
    (gseasonStats : List (String × SeasonStats V)) : List (AccordionSection V) :=
  accordionSectionsFrom 0 gseasonStats

theorem accordionSectionsFrom_codes {V : Type} (idx : Nat)
    (gs : List (String × SeasonStats V)) :
    (accordionSectionsFrom idx gs).map AccordionSection.seasonCode
      = gs.map Prod.fst := by
  induction gs generalizing idx with
  | nil => rfl
  | cons hd tl ih =>
    obtain ⟨code, stats⟩ := hd
    simp [accordionSectionsFrom, mkAccordionSection, ih]

theorem accordionSectionsFrom_length {V : Type} (idx : Nat)
    (gs : List (String × SeasonStats V)) :
    (accordionSectionsFrom idx gs).length = gs.length := by
  induction gs generalizing idx with
  | nil => rfl
  | cons hd tl ih =>
    obtain ⟨code, stats⟩ := hd
    simp [accordionSectionsFrom, ih]

theorem accordionSectionsFrom_expanded {V : Type} (idx : Nat)
    (gs : List (String × SeasonStats V)) (i : Nat)
    (h : i < (accordionSectionsFrom idx gs).length) :
    ((accordionSectionsFrom idx gs).get ⟨i, h⟩).expanded = (idx + i == 0) := by
  induction gs generalizing idx i with
  | nil => simp [accordionSectionsFrom] at h
  | cons hd tl ih =>
    obtain ⟨code, stats⟩ := hd
    cases i with
    | zero => simp [accordionSectionsFrom, mkAccordionSection]
    | succ n =>
      have h' : n < (accordionSectionsFrom (idx + 1) tl).length := by
        simpa [accordionSectionsFrom] using h
      have := ih (idx + 1) n h'
      simp only [accordionSectionsFrom, List.get_cons_succ]
      rw [this]
      have harith : idx + 1 + n = idx + (n + 1) := by omega
      rw [harith]

/-- Counterexample to C5: the presenter emits sections in the order of the
season-bucketed result's own entries, not in the OptionCatalog's season
order. With catalog season order ["winter_dormancy", "early_growth"] and a
result whose entries arrive as ["early_growth", "winter_dormancy"], the
sections come out as ["early_growth", "winter_dormancy"], which differs from
the catalog order. -/
theorem accordion_order_counterexample :
    (generateSeasonalSummaryAccordion
        [("early_growth", (⟨none, none⟩ : SeasonStats Nat)),
         ("winter_dormancy", ⟨none, none⟩)]).map AccordionSection.seasonCode
      = ["early_growth", "winter_dormancy"] ∧
    ["early_growth", "winter_dormancy"] ≠ ["winter_dormancy", "early_growth"] := by
  constructor
  · rfl
  · decide

/-- C5 (amended): for every non-empty season-bucketed SummaryResult, the
presenter assembles one collapsible section per season code in the order of
the result's own entries, and exactly one section — the first — starts
expanded while all others start collapsed. -/
theorem accordion_sections_order_and_expansion {V : Type}
    (gs : List (String × SeasonStats V)) (hne : gs ≠ []) :
    (generateSeasonalSummaryAccordion gs).map AccordionSection.seasonCode
      = gs.map Prod.fst ∧
    (generateSeasonalSummaryAccordion gs).length = gs.length ∧
    (∀ i (h : i < (generateSeasonalSummaryAccordion gs).length),
      ((generateSeasonalSummaryAccordion gs).get ⟨i, h⟩).expanded = (i == 0)) ∧
    ((generateSeasonalSummaryAccordion gs).countP AccordionSection.expanded = 1) := by
  refine ⟨accordionSectionsFrom_codes 0 gs, accordionSectionsFrom_length 0 gs,
    fun i h => by simpa using accordionSectionsFrom_expanded 0 gs i h, ?_⟩
  cases gs with
  | nil => exact absurd rfl hne
  | cons hd tl =>
    obtain ⟨code, stats⟩ := hd
    have hcount : ∀ (idx : Nat) (l : List (String × SeasonStats V)),
        (accordionSectionsFrom (idx + 1) l).countP AccordionSection.expanded = 0 := by
      intro idx l
      induction l generalizing idx with
      | nil => rfl
      | cons hd2 tl2 ih2 =>
        obtain ⟨c2, s2⟩ := hd2
        have hfalse : (mkAccordionSection (idx + 1) c2 s2).expanded = false := by
          simp [mkAccordionSection]
        simp only [accordionSectionsFrom, List.countP_cons, hfalse]
        rw [ih2 (idx + 1)]
        simp
    have hhd : (mkAccordionSection 0 code stats).expanded = true := rfl
    simp only [generateSeasonalSummaryAccordion, accordionSectionsFrom,
      List.countP_cons, hhd]
    rw [hcount 0 tl]
    simp

/-- Witness for C5 (amended) at a concrete two-season result. -/
theorem accordion_sections_order_and_expansion_witness :
    (generateSeasonalSummaryAccordion
        [("early_growth", (⟨none, none⟩ : SeasonStats Nat)),
         ("peak_growing", ⟨none, none⟩)]).countP AccordionSection.expanded = 1 :=
  (accordion_sections_order_and_expansion
    [("early_growth", (⟨none, none⟩ : SeasonStats Nat)),
     ("peak_growing", ⟨none, none⟩)] (by decide)).2.2.2

/-- Counterexample to C3: in the season-bucketed layout, an empty pair-group
with the temperature variable "T" renders the generic "No S1/S2 ratio
summary available." paragraph, not the "ratio not meaningful for
temperature" placeholder that the flat layout uses — even though
`isTempVariable "T"` holds. -/
theorem season_temp_placeholder_counterexample :
    isTempVariable "T" = true ∧
    (generateSeasonalSummaryAccordion
        [("winter_dormancy", (⟨some [], some []⟩ : SeasonStats Nat))]).map
        AccordionSection.s1s2Cell
      = [.placeholder "text-muted" "No S1/S2 ratio summary available."] ∧
    RenderedCell.placeholder "text-muted" "No S1/S2 ratio summary available."
      ≠ (RenderedCell.placeholder "text-muted"
          "Temperature ratios are not shown because they are not meaningful."
          : RenderedCell Nat) := by
  refine ⟨rfl, rfl, ?_⟩
  decide

/-- C3 (amended): for an empty pair-group the flat layout renders the
"not meaningful" placeholder exactly for temperature-family variables and
the "no data" placeholder otherwise, while the season-bucketed layout always
renders the "No S1/S2 (resp. S3/S4) ratio summary available." placeholder
regardless of variable; all of these are total renderings, never a
formatting error. -/
theorem empty_pair_group_placeholders {V : Type} (varName : String) :
    (isTempVariable varName = true →
      flatRatioCell ([] : List (String × V)) varName
        = .placeholder "text-muted"
            "Temperature ratios are not shown because they are not meaningful.") ∧
    (isTempVariable varName = false →
      flatRatioCell ([] : List (String × V)) varName
        = .placeholder "text-danger" "No summary statistics available.") ∧
    accordionRatioCell ([] : List (String × V)) "S1/S2"
      = .placeholder "text-muted" "No S1/S2 ratio summary available." ∧
    accordionRatioCell ([] : List (String × V)) "S3/S4"
      = .placeholder "text-muted" "No S3/S4 ratio summary available." := by
  refine ⟨fun ht => ?_, fun hf => ?_, rfl, rfl⟩
  · simp [flatRatioCell, ht]
  · simp [flatRatioCell, hf]

/-- Witness for C3 (amended): the temperature variable "T" and the
non-temperature variable "VWC" on empty pair-groups. -/
theorem empty_pair_group_placeholders_witness :
    flatRatioCell ([] : List (String × Nat)) "T"
      = .placeholder "text-muted"
          "Temperature ratios are not shown because they are not meaningful." ∧
    flatRatioCell ([] : List (String × Nat)) "VWC"
      = .placeholder "text-danger" "No summary statistics available." :=
  ⟨(empty_pair_group_placeholders "T").1 (by decide),
   (empty_pair_group_placeholders "VWC").2.1 (by decide)⟩

/-- The filter snapshot returned by `getSelectedFilters("main")`
(ui_controls.js, newest draft): the selection-state fields read from the
main-context widgets. Neither draft of `getSelectedFilters` ever sets an
`includeTemperature` or `includeRainfall` property, so a fresh snapshot
carries no weather-overlay flags. -/
structure MainFilters where
  year : Nat
  granularity : String
  varName : String
  strip : String
  startDate : String
  endDate : String
  loggerLocation : String
  depth : String
  traceOption : String
deriving DecidableEq

/-- A plot request body: the filter snapshot plus presence of the two
weather-overlay flags in the serialized JSON (`true` means the property is
present and set). -/
structure PlotRequestPayload where
  filters : MainFilters
  includeTemperature : Bool
  includeRainfall : Bool
deriving DecidableEq

/-- Request-body construction of `updatePlot` (plots.js lines 15-37): start
from the snapshot (flags absent); when granularity is not "gseason" add
`includeTemperature` for variable "T" and `includeRainfall` for variable
"VWC"; when granularity is "gseason" delete any weather flags. -/
def updatePlotPayload (f : MainFilters) : PlotRequestPayload :=
  let isGseason := f.granularity == "gseason"
  if isGseason then
    { filters := f, includeTemperature := false, includeRainfall := false }
  else
    { filters := f
      includeTemperature := f.varName == "T"
      includeRainfall := f.varName == "VWC" }

/-- Request-body construction of `fetchAndRenderPlot` (plot_utils.js lines
12-22), the issuance path used for the automatic initial load: the `config`
object lists the selection fields only and never includes either
weather-overlay flag. -/
def fetchAndRenderPlotPayload (f : MainFilters) : PlotRequestPayload :=
  { filters := f, includeTemperature := false, includeRainfall := false }

/-- Counterexample to C4: an issuance through `fetchAndRenderPlot` with
variable "T" and the non-season granularity "daily" carries no
temperature-overlay flag, although the claimed rule ("included exactly when
variable is the temperature variable and granularity is not
season-aggregated") requires it to be present on every plot issuance. -/
theorem overlay_flags_counterexample :
    (fetchAndRenderPlotPayload
        ⟨2023, "daily", "T", "S1", "2023-01-01", "2023-11-15", "T", "6 in",
          "depths"⟩).includeTemperature = false ∧
    ((("T" : String) == "T") && !(("daily" : String) == "gseason")) = true := by
  constructor
  · rfl
  · decide

/-- C4 (amended): requests built by `updatePlot` carry the
temperature-overlay flag exactly when variable is "T" and granularity is not
"gseason", and the rainfall-overlay flag exactly when variable is "VWC" and
granularity is not "gseason", both flags being absent otherwise; requests
built by `fetchAndRenderPlot` (the auto-load path) never carry either flag. -/
theorem overlay_flags_rule (f : MainFilters) :
    (updatePlotPayload f).includeTemperature
      = ((f.varName == "T") && !(f.granularity == "gseason")) ∧
    (updatePlotPayload f).includeRainfall
      = ((f.varName == "VWC") && !(f.granularity == "gseason")) ∧
    (fetchAndRenderPlotPayload f).includeTemperature = false ∧
    (fetchAndRenderPlotPayload f).includeRainfall = false := by
  refine ⟨?_, ?_, rfl, rfl⟩ <;>
    · by_cases hg : (f.granularity == "gseason") = true <;>
        simp [updatePlotPayload, hg]

/-- Result of one `fetch` as seen by the `await`ing code: a transport error
(the promise rejects), an HTTP error response (`response.ok` false, with
status and body text), or a successful payload. -/
inductive FetchOutcome (A : Type) where
  | transportError
  | httpError (status : Nat) (body : String)
  | success (payload : A)
deriving DecidableEq

/-- Whether an outcome is a failure (transport error or non-success
response). -/
def isFetchFailure {A : Type} : FetchOutcome A → Bool
  | .success _ => false
  | _ => true

/-- The try-block of `updatePlot` up to rendering: a non-ok response throws
(`throw new Error("Server returned error: ...")`), a transport error
propagates the rejection, a success yields the parsed payload. -/
def plotFetchResult {A : Type} : FetchOutcome A → Except String A
  | .success a => .ok a
  | .httpError status body =>
    .error ("Server returned error: " ++ toString status ++ " - " ++ body)
  | .transportError => .error "fetch rejected"

/-- `updatePlot` as a whole (plots.js lines 11-62): the body runs inside
try/catch; a successful payload is rendered by `Plotly.react` (replacing the
displayed result), and every failure lands in the catch block, which only
logs — it neither rethrows, nor retries (there is exactly one `fetch` in the
function and no loop), nor touches the previously rendered chart. The
`Except` result is the promise returned to the caller: `.ok` means it
resolves without throwing. -/
def updatePlotRun {A : Type} (o : FetchOutcome A) (prev : Option A) :
    Except String (Option A) :=
  match plotFetchResult o with
  | .ok a => .ok (some a)
  | .error _ => .ok prev

/-- A parsed plot response as consumed by `fetchAndRenderPlot`: the Plotly
trace array and layout. -/
structure PlotlyPayload (T L : Type) where
  data : List T
  layout : L
deriving DecidableEq

/-- `fetchAndRenderPlot` (plot_utils.js lines 10-66): same try/catch shape
as `updatePlot`, with one extra guard — an ok response whose `data` array is
empty returns early without rendering, leaving the previous chart. -/
def fetchAndRenderPlotRun {T L : Type} (o : FetchOutcome (PlotlyPayload T L))
    (prev : Option (PlotlyPayload T L)) :
    Except String (Option (PlotlyPayload T L)) :=
  match plotFetchResult o with
  | .ok p => if p.data.length == 0 then .ok prev else .ok (some p)
  | .error _ => .ok prev

/-- C8: a plot fetch that fails with a transport error or a non-success
response is caught inside the coordinator — the operation always resolves
(never throws to its caller) and the previously rendered result is left
unchanged — in both plot issuance paths; the model consumes exactly one
fetch outcome per call, reflecting that no automatic retry is issued. -/
theorem plot_fetch_failure_contained {A T L : Type} (o : FetchOutcome A)
    (o2 : FetchOutcome (PlotlyPayload T L)) (prev : Option A)
    (prev2 : Option (PlotlyPayload T L)) :
    ((updatePlotRun o prev).isOk = true ∧
      (fetchAndRenderPlotRun o2 prev2).isOk = true) ∧
    (isFetchFailure o = true → updatePlotRun o prev = .ok prev) ∧
    (isFetchFailure o2 = true → fetchAndRenderPlotRun o2 prev2 = .ok prev2) := by
  refine ⟨⟨?_, ?_⟩, fun h => ?_, fun h2 => ?_⟩
  · cases o <;> simp [updatePlotRun, plotFetchResult, Except.isOk, Except.toBool]
  · cases o2 <;>
      simp only [fetchAndRenderPlotRun, plotFetchResult] <;>
      first
        | rfl
        | split <;> rfl
  · cases o with
    | success a => simp [isFetchFailure] at h
    | transportError => rfl
    | httpError s b => rfl
  · cases o2 with
    | success p => simp [isFetchFailure] at h2
    | transportError => rfl
    | httpError s b => rfl

/-- Witness for C8: an HTTP 500 outcome on a chart currently showing a
previous payload leaves that payload in place in both paths. -/
theorem plot_fetch_failure_contained_witness :
    updatePlotRun (.httpError 500 "boom") (some (7 : Nat)) = .ok (some 7) ∧
    fetchAndRenderPlotRun (.transportError : FetchOutcome (PlotlyPayload Nat Nat))
        (some ⟨[1], 0⟩) = .ok (some ⟨[1], 0⟩) :=
  ⟨(plot_fetch_failure_contained (.httpError 500 "boom")
      (.transportError : FetchOutcome (PlotlyPayload Nat Nat))
      (some 7) (some ⟨[1], 0⟩)).2.1 (by decide),
   (plot_fetch_failure_contained (.httpError 500 "boom")
      (.transportError : FetchOutcome (PlotlyPayload Nat Nat))
      (some 7) (some ⟨[1], 0⟩)).2.2 (by decide)⟩

/-- The statistics store read by the export code: `window.latestSummaryStats`
with its possible `raw`, `ratio` and `gseason_stats` objects (each absent
when never loaded; an absent store is modelled as all three absent, matching
`window.latestSummaryStats || {}`). -/
structure LatestSummaryStats (V G : Type) where
  raw : Option (List (String × V))
  ratio : Option (List (String × V))
  gseason : Option (List (String × G))
deriving DecidableEq

/-- The truthiness-and-size check `stats.x && Object.keys(stats.x).length > 0`
used by `downloadSummaryData`. -/
def hasEntries {V : Type} : Option (List (String × V)) → Bool
  | some l => 0 < l.length
  | none => false

/-- JavaScript property assignment `obj[k] = v` on an object: overwrite in
place when the key exists, append otherwise. -/
def jsObjectSet {V : Type} (obj : List (String × V)) (k : String) (v : V) :
    List (String × V) :=
  if obj.any (fun kv => kv.1 == k) then
    obj.map (fun kv => if kv.1 == k then (kv.1, v) else kv)
  else obj ++ [(k, v)]

/-- The object spread `{...a, ...b}` from the `type === "all"` payload
(downloads.js line 110): start from `a` and assign each property of `b` in
order, so on a shared key `b`'s entry overwrites `a`'s. -/
def jsSpreadMerge {V : Type} (a b : List (String × V)) : List (String × V) :=
  b.foldl (fun acc kv => jsObjectSet acc kv.1 kv.2) a

theorem lookup_cons_pair {V : Type} (k k0 : String) (v0 : V) (l : List (String × V)) :
    List.lookup k ((k0, v0) :: l)
      = if k = k0 then some v0 else List.lookup k l := by
  by_cases hk : k = k0
  · subst hk
    simp [List.lookup]
  · have hb : (k == k0) = false := by simp [hk]
    simp [List.lookup, hb, hk]

theorem lookup_append_pairs {V : Type} (l1 l2 : List (String × V)) (k : String) :
    List.lookup k (l1 ++ l2)
      = match List.lookup k l1 with
        | some v => some v
        | none => List.lookup k l2 := by
  induction l1 with
  | nil => simp [List.lookup]
  | cons hd tl ih =>
    obtain ⟨k0, v0⟩ := hd
    by_cases hk : k = k0
    · subst hk
      simp [List.cons_append, lookup_cons_pair]
    · simp [List.cons_append, lookup_cons_pair, hk, ih]

theorem lookup_none_of_any_false {V : Type} (l : List (String × V)) (k : String)
    (h : l.any (fun kv => kv.1 == k) = false) : List.lookup k l = none := by
  induction l with
  | nil => rfl
  | cons hd tl ih =>
    obtain ⟨k0, v0⟩ := hd
    simp only [List.any_cons, Bool.or_eq_false_iff] at h
    rw [lookup_cons_pair, if_neg (fun hc => by simp [hc] at h)]
    exact ih h.2

theorem lookup_overwrite_ne {V : Type} (obj : List (String × V)) (k k1 : String)
    (v1 : V) (hk : k ≠ k1) :
    List.lookup k (obj.map (fun kv => if kv.1 == k1 then (kv.1, v1) else kv))
      = List.lookup k obj := by
  induction obj with
  | nil => rfl
  | cons hd tl ih =>
    obtain ⟨k0, v0⟩ := hd
    simp only [List.map_cons]
    by_cases h0 : k0 = k1
    · subst h0
      simp only [show ((k0, v0).1 == k0) = true by simp, if_true]
      rw [lookup_cons_pair, lookup_cons_pair, if_neg hk, if_neg hk, ih]
    · simp only [show (((k0, v0).1 == k1) = true) = False by simp [h0], if_false]
      rw [lookup_cons_pair, lookup_cons_pair, ih]

theorem lookup_overwrite_eq {V : Type} (obj : List (String × V)) (k1 : String)
    (v1 : V) (hany : obj.any (fun kv => kv.1 == k1) = true) :
    List.lookup k1 (obj.map (fun kv => if kv.1 == k1 then (kv.1, v1) else kv))
      = some v1 := by
  induction obj with
  | nil => simp at hany
  | cons hd tl ih =>
    obtain ⟨k0, v0⟩ := hd
    simp only [List.map_cons]
    by_cases h0 : k0 = k1
    · subst h0
      simp only [show ((k0, v0).1 == k0) = true by simp, if_true]
      rw [lookup_cons_pair, if_pos rfl]
    · simp only [show (((k0, v0).1 == k1) = true) = False by simp [h0], if_false]
      rw [lookup_cons_pair, if_neg (fun hc => h0 hc.symm)]
      simp only [List.any_cons, Bool.or_eq_true] at hany
      rcases hany with hc | htl
      · exact absurd (by simpa using hc) h0
      · exact ih htl

theorem lookup_jsObjectSet {V : Type} (obj : List (String × V)) (k k1 : String)
    (v1 : V) :
    List.lookup k (jsObjectSet obj k1 v1)
      = if k = k1 then some v1 else List.lookup k obj := by
  unfold jsObjectSet
  by_cases hany : obj.any (fun kv => kv.1 == k1) = true
  · rw [if_pos hany]
    by_cases hk : k = k1
    · subst hk
      rw [if_pos rfl]
      exact lookup_overwrite_eq obj k v1 hany
    · rw [if_neg hk]
      exact lookup_overwrite_ne obj k k1 v1 hk
  · rw [if_neg hany]
    rw [lookup_append_pairs]
    by_cases hk : k = k1
    · subst hk
      rw [lookup_none_of_any_false obj k (Bool.eq_false_iff.mpr hany)]
      rw [if_pos rfl]
      simp [List.lookup]
    · rw [if_neg hk]
      cases hval : List.lookup k obj with
      | some v => rfl
      | none =>
        show List.lookup k [(k1, v1)] = none
        rw [lookup_cons_pair, if_neg hk]
        rfl

theorem lookup_jsSpreadMerge_reverse {V : Type} (b a : List (String × V))
    (k : String) :
    List.lookup k (jsSpreadMerge a b)
      = match List.lookup k b.reverse with
        | some v => some v
        | none => List.lookup k a := by
  induction b generalizing a with
  | nil => rfl
  | cons hd rest ih =>
    obtain ⟨k1, v1⟩ := hd
    show List.lookup k (jsSpreadMerge (jsObjectSet a k1 v1) rest) = _
    rw [ih (jsObjectSet a k1 v1)]
    have hrev : ((k1, v1) :: rest).reverse = rest.reverse ++ [(k1, v1)] := by
      simp
    rw [hrev, lookup_append_pairs]
    cases hr : List.lookup k rest.reverse with
    | some v => rfl
    | none =>
      simp only []
      rw [lookup_jsObjectSet, lookup_cons_pair]
      by_cases hk : k = k1
      · rw [if_pos hk, if_pos hk]
      · rw [if_neg hk, if_neg hk]
        rfl

theorem lookup_reverse_of_nodup_keys {V : Type} (l : List (String × V))
    (k : String) (hnd : (l.map Prod.fst).Nodup) :
    List.lookup k l.reverse = List.lookup k l := by
  induction l with
  | nil => rfl
  | cons hd tl ih =>
    obtain ⟨k0, v0⟩ := hd
    simp only [List.map_cons, List.nodup_cons] at hnd
    have hrev : ((k0, v0) :: tl).reverse = tl.reverse ++ [(k0, v0)] := by
      simp
    rw [hrev, lookup_append_pairs, ih hnd.2, lookup_cons_pair k k0 v0 tl]
    by_cases hk : k = k0
    · subst hk
      have hnone : List.lookup k tl = none := by
        apply lookup_none_of_any_false
        rw [Bool.eq_false_iff]
        intro hc
        rw [List.any_eq_true] at hc
        obtain ⟨kv, hmem, hbeq⟩ := hc
        have hkeq : kv.1 = k := by simpa using hbeq
        exact hnd.1 (hkeq ▸ List.mem_map_of_mem Prod.fst hmem)
      rw [hnone, if_pos rfl]
      simp [List.lookup]
    · rw [if_neg hk]
      cases hval : List.lookup k tl with
      | some v => rfl
      | none =>
        have hb : (k == k0) = false := by simp [hk]
        simp [List.lookup, hb]

/-- The merged lookup law actually used by the claims: when the second
object's keys are unique (as JavaScript object keys are), `{...a, ...b}`
looks up to `b`'s entry when the key is present in `b` and to `a`'s entry
otherwise. -/
theorem lookup_jsSpreadMerge {V : Type} (a b : List (String × V)) (k : String)
    (hnd : (b.map Prod.fst).Nodup) :
    List.lookup k (jsSpreadMerge a b)
      = match List.lookup k b with
        | some v => some v
        | none => List.lookup k a := by
  rw [lookup_jsSpreadMerge_reverse, lookup_reverse_of_nodup_keys b k hnd]

/-- The object assigned to `payload.summaryStats`: the chosen flat
StatBucket, or the whole `gseason_stats` mapping for season granularity. -/
inductive SummaryPayloadStats (V G : Type) where
  | flatStats (entries : List (String × V))
  | seasonStats (entries : List (String × G))
deriving DecidableEq

/-- The body POSTed to /download_summary_data. -/
structure SummaryDownloadPayload (V G : Type) where
  year : String
  varName : String
  strip : String
  depth : String
  granularity : String
  dlType : String
  summaryStats : SummaryPayloadStats V G
deriving DecidableEq

/-- How a `downloadSummaryData` call starts: either it bails out with a
user-visible alert before any fetch, or it issues the POST with the given
payload. -/
inductive DownloadStart (V G : Type) where
  | alerted (msg : String)
  | requested (payload : SummaryDownloadPayload V G)
deriving DecidableEq

/-- `downloadSummaryData` up to the fetch (downloads.js lines 69-116): read
the summary selections, check `window.latestSummaryStats` for the requested
type — for "gseason" granularity the seasonal stats must be a non-empty
object, otherwise "raw" needs raw entries, "ratio" needs ratio entries and
"all" needs at least one of the two — alerting and returning without any
network call when the check fails; otherwise attach the chosen statistics
(`{...stats.raw, ...stats.ratio}` for "all") and POST them. -/
def downloadSummaryData {V G : Type}
    (dlType year varName strip depth granularity : String)
    (stats : LatestSummaryStats V G) : DownloadStart V G :=
  if granularity == "gseason" then
    if hasEntries stats.gseason then
      .requested { year := year, varName := varName, strip := strip,
                   depth := depth, granularity := granularity, dlType := dlType,
                   summaryStats := .seasonStats (stats.gseason.getD []) }
    else .alerted "No seasonal summary statistics available."
  else
    if (dlType == "raw" && !hasEntries stats.raw)
        || (dlType == "ratio" && !hasEntries stats.ratio)
        || (dlType == "all" && !hasEntries stats.raw && !hasEntries stats.ratio) then
      .alerted "No summary statistics available for download."
    else
      .requested { year := year, varName := varName, strip := strip,
                   depth := depth, granularity := granularity, dlType := dlType,
                   summaryStats := .flatStats
                     (if dlType == "raw" then stats.raw.getD []
                      else if dlType == "ratio" then stats.ratio.getD []
                      else jsSpreadMerge (stats.raw.getD []) (stats.ratio.getD [])) }

/-- The statistics-availability condition guarding the fetch, written as the
negation of the alert guard of `downloadSummaryData`. -/
def summaryStatsAvailable {V G : Type} (dlType granularity : String)
    (stats : LatestSummaryStats V G) : Bool :=
  if granularity == "gseason" then hasEntries stats.gseason
  else !((dlType == "raw" && !hasEntries stats.raw)
      || (dlType == "ratio" && !hasEntries stats.ratio)
      || (dlType == "all" && !hasEntries stats.raw && !hasEntries stats.ratio))

/-- How a `downloadSummaryData` call finishes once the POST settles
(downloads.js lines 112-135): a successful response is read as a blob and
saved through a programmatic anchor click under
`summary_<granularity>_<type>.zip`; a transport error or non-ok response is
caught and alerted. -/
inductive DownloadFinish (B : Type) where
  | saved (fileName : String) (blob : B)
  | alerted (msg : String)
deriving DecidableEq

def downloadSummaryFinish {B : Type} (granularity dlType : String)
    (res : FetchOutcome B) : DownloadFinish B :=
  match res with
  | .success b => .saved ("summary_" ++ granularity ++ "_" ++ dlType ++ ".zip") b
  | .transportError => .alerted "Failed to download summary data."
  | .httpError _ _ => .alerted "Failed to download summary data."

/-- C9: for every export target, when no statistics have been loaded for
that target the exporter alerts without issuing any network call; otherwise
it issues the archive request with the stored statistics, and a successful
response is saved as a browser download of the returned blob while a failed
one only alerts. -/
theorem export_requires_loaded_stats {V G : Type}
    (dlType year varName strip depth granularity : String)
    (stats : LatestSummaryStats V G) :
    (summaryStatsAvailable dlType granularity stats = false →
      ∃ msg, downloadSummaryData dlType year varName strip depth granularity stats
        = .alerted msg) ∧
    (summaryStatsAvailable dlType granularity stats = true →
      ∃ p, downloadSummaryData dlType year varName strip depth granularity stats
        = .requested p) ∧
    (∀ (B : Type) (blob : B),
      downloadSummaryFinish granularity dlType (.success blob)
        = .saved ("summary_" ++ granularity ++ "_" ++ dlType ++ ".zip") blob) ∧
    (∀ (B : Type) (o : FetchOutcome B), isFetchFailure o = true →
      downloadSummaryFinish granularity dlType o
        = .alerted "Failed to download summary data.") := by
  refine ⟨fun hna => ?_, fun ha => ?_, fun B blob => rfl, fun B o ho => ?_⟩
  · unfold summaryStatsAvailable at hna
    unfold downloadSummaryData
    by_cases hg : (granularity == "gseason") = true
    · rw [if_pos hg] at hna ⊢
      rw [if_neg (by simp [hna])]
      exact ⟨_, rfl⟩
    · rw [if_neg hg] at hna ⊢
      cases hguard : ((dlType == "raw" && !hasEntries stats.raw)
          || (dlType == "ratio" && !hasEntries stats.ratio)
          || (dlType == "all" && !hasEntries stats.raw && !hasEntries stats.ratio)) with
      | true => exact ⟨_, rfl⟩
      | false =>
        rw [hguard] at hna
        simp at hna
  · unfold summaryStatsAvailable at ha
    unfold downloadSummaryData
    by_cases hg : (granularity == "gseason") = true
    · rw [if_pos hg] at ha ⊢
      rw [if_pos ha]
      exact ⟨_, rfl⟩
    · rw [if_neg hg] at ha ⊢
      cases hguard : ((dlType == "raw" && !hasEntries stats.raw)
          || (dlType == "ratio" && !hasEntries stats.ratio)
          || (dlType == "all" && !hasEntries stats.raw && !hasEntries stats.ratio)) with
      | false => exact ⟨_, rfl⟩
      | true =>
        rw [hguard] at ha
        simp at ha
  · cases o with
    | success b => simp [isFetchFailure] at ho
    | transportError => rfl
    | httpError s b => rfl

/-- Witness for C9: with nothing loaded the "raw" export alerts; with a raw
bucket loaded it issues the request; a successful archive response is saved
under the derived filename. -/
theorem export_requires_loaded_stats_witness :
    (∃ msg, downloadSummaryData "raw" "2023" "VWC" "S1" "6 in" "daily"
        ({ raw := none, ratio := none, gseason := none }
          : LatestSummaryStats Nat Nat)
      = DownloadStart.alerted msg) ∧
    (∃ p, downloadSummaryData "raw" "2023" "VWC" "S1" "6 in" "daily"
        ({ raw := some [("VWC_T", 1)], ratio := none, gseason := none }
          : LatestSummaryStats Nat Nat)
      = DownloadStart.requested p) ∧
    downloadSummaryFinish "daily" "raw" (.success (0 : Nat))
      = DownloadFinish.saved ("summary_" ++ "daily" ++ "_" ++ "raw" ++ ".zip") 0 :=
  ⟨(export_requires_loaded_stats "raw" "2023" "VWC" "S1" "6 in" "daily"
      { raw := none, ratio := none, gseason := none }).1 (by decide),
   (export_requires_loaded_stats "raw" "2023" "VWC" "S1" "6 in" "daily"
      { raw := some [("VWC_T", 1)], ratio := none, gseason := none }).2.1 (by decide),
   (export_requires_loaded_stats "raw" "2023" "VWC" "S1" "6 in" "daily"
      ({ raw := some [("VWC_T", 1)], ratio := none, gseason := none }
        : LatestSummaryStats Nat Nat)).2.2.1 Nat 0⟩

/-- C10: for non-season granularity, a type-"all" export proceeds exactly
when at least one of the stored raw and ratio buckets is non-empty, and the
payload it sends is the spread `{...raw, ...ratio}` — the key-wise union in
which, for every trace key present in both buckets, the ratio entry
overwrites the raw entry (stated via the lookup law of the spread under
unique ratio keys). -/
theorem download_all_union {V G : Type}
    (year varName strip depth granularity : String)
    (stats : LatestSummaryStats V G)
    (hg : (granularity == "gseason") = false) :
    ((hasEntries stats.raw || hasEntries stats.ratio) = false →
      downloadSummaryData "all" year varName strip depth granularity stats
        = .alerted "No summary statistics available for download.") ∧
    ((hasEntries stats.raw || hasEntries stats.ratio) = true →
      downloadSummaryData "all" year varName strip depth granularity stats
        = .requested { year := year, varName := varName, strip := strip,
                       depth := depth, granularity := granularity,
                       dlType := "all",
                       summaryStats := .flatStats
                         (jsSpreadMerge (stats.raw.getD [])
                           (stats.ratio.getD [])) }) ∧
    (∀ (a b : List (String × V)) (k : String), (b.map Prod.fst).Nodup →
      List.lookup k (jsSpreadMerge a b)
        = match List.lookup k b with
          | some v => some v
          | none => List.lookup k a) := by
  refine ⟨fun hno => ?_, fun hyes => ?_, fun a b k hnd => lookup_jsSpreadMerge a b k hnd⟩
  · unfold downloadSummaryData
    rw [if_neg (by simp [hg])]
    rw [if_pos ?_]
    simp only [Bool.or_eq_false_iff] at hno
    simp [hno.1, hno.2]
  · unfold downloadSummaryData
    rw [if_neg (by simp [hg])]
    rw [if_neg ?_]
    · rfl
    · simp only [Bool.or_eq_true] at hyes
      rcases hyes with h | h <;> simp [h]

/-- Witness for C10: raw loaded, ratio empty-but-present — the "all" export
proceeds on the union, and on a shared key the ratio entry wins. -/
theorem download_all_union_witness :
    downloadSummaryData "all" "2023" "VWC" "S1" "6 in" "daily"
        ({ raw := some [("VWC_S1_S2_T", 1)], ratio := some [("VWC_S1_S2_T", 5)],
           gseason := none } : LatestSummaryStats Nat Nat)
      = DownloadStart.requested { year := "2023", varName := "VWC",
                                  strip := "S1", depth := "6 in",
                                  granularity := "daily", dlType := "all",
                                  summaryStats := .flatStats
                                    (jsSpreadMerge [("VWC_S1_S2_T", 1)]
                                      [("VWC_S1_S2_T", 5)]) } ∧
    List.lookup "VWC_S1_S2_T"
        (jsSpreadMerge [("VWC_S1_S2_T", (1 : Nat))] [("VWC_S1_S2_T", 5)])
      = some 5 := by
  constructor
  · exact (download_all_union "2023" "VWC" "S1" "6 in" "daily"
      { raw := some [("VWC_S1_S2_T", 1)], ratio := some [("VWC_S1_S2_T", 5)],
        gseason := none } (by decide)).2.1 (by decide)
  · have h := (download_all_union "2023" "VWC" "S1" "6 in" "daily"
      ({ raw := some [("VWC_S1_S2_T", 1)], ratio := some [("VWC_S1_S2_T", 5)],
         gseason := none } : LatestSummaryStats Nat Nat) (by decide)).2.2
      [("VWC_S1_S2_T", (1 : Nat))] [("VWC_S1_S2_T", 5)] "VWC_S1_S2_T" (by simp)
    rw [h]
    decide

end BiocharClient
